import Mathlib

/-!
Shallow embedding of the Floating-translucid-Box project core
(src/Script.js together with src/config.js), and proofs about it.

The controller state machine (class FloatingBox) is embedded as a pure
state-transition system over exact rational arithmetic: the state holds
the current and target orientation triples, the hover flag, and the glow
bookkeeping; pointer-enter, pointer-move, pointer-leave and the animation
tick are the four events.  The bubble generator (class BubbleManager) is
embedded as a pure function of an explicit random stream.
-/

attribute [local semireducible] Rat.add Rat.sub Rat.mul Rat.inv

/-- Per-box configuration (the numeric fields of CONFIG.box used by
FloatingBox in src/config.js). -/
structure BoxConfig where
  rotationMax : ℚ
  hoverHeight : ℚ
  motionSpeed : ℚ
  glowOpacity : ℚ
  snapThreshold : ℚ
deriving DecidableEq

/-- The concrete CONFIG.box values from src/config.js:
rotationMax 15, hoverHeight 100, motionSpeed 0.25, glowOpacity 0.2,
snapThreshold 0.01. -/
def boxCONFIG : BoxConfig :=
  { rotationMax := 15
    hoverHeight := 100
    motionSpeed := 1/4
    glowOpacity := 1/5
    snapThreshold := 1/100 }

/-- An orientation triple: the rotateX / rotateY / translateZ scalars held
in this.state.current and this.state.target of FloatingBox. -/
structure OrientationState where
  rotateX : ℚ
  rotateY : ℚ
  translateZ : ℚ
deriving DecidableEq

/-- The all-zero orientation, the value both state fields start from. -/
def OrientationState.zero : OrientationState := ⟨0, 0, 0⟩

/-- AnimationManager.lerp from src/Script.js: start + (end - start) * factor. -/
def lerp (start finish factor : ℚ) : ℚ :=
  start + (finish - start) * factor

/-- A mouse event: the clientX / clientY pointer coordinates. -/
structure MouseEvent where
  clientX : ℚ
  clientY : ℚ
deriving DecidableEq

/-- A bounding rectangle as returned by getBoundingClientRect. -/
structure Rect where
  left : ℚ
  top : ℚ
  width : ℚ
  height : ℚ
deriving DecidableEq

/-- The value of this.box.style.transition: never assigned yet (unset),
assigned 'none' by handleMouseEnter (disabled), or assigned the timed
transform transition by handleMouseLeave (settle). -/
inductive TransitionStyle where
  | unset
  | disabled
  | settle
deriving DecidableEq

/-- The mutable state of one FloatingBox instance: the current and target
orientations, the isHovered flag, and the glow bookkeeping (the --mouse-x /
--mouse-y focal-point percentages and the glow opacity) plus the box
transition style. -/
structure BoxState where
  current : OrientationState
  target : OrientationState
  isHovered : Bool
  glowX : ℚ
  glowY : ℚ
  glowOpacity : ℚ
  transition : TransitionStyle
deriving DecidableEq

/-- The state built by the FloatingBox constructor: both orientations zero,
not hovered; glow focal point and opacity not yet written (modelled 0),
transition never assigned. -/
def initState : BoxState :=
  { current := OrientationState.zero
    target := OrientationState.zero
    isHovered := false
    glowX := 0
    glowY := 0
    glowOpacity := 0
    transition := TransitionStyle.unset }

/-- Rounding to two decimal places, modelling the toFixed(2) formatting in
updateGlowPosition (JS toFixed rounds ties away from zero while round here
rounds ties up; the two agree away from exact midpoints, and no theorem
below depends on tie behaviour). -/
def roundTo2 (q : ℚ) : ℚ := (round (q * 100) : ℤ) / 100

/-- FloatingBox.updateGlowPosition: writes the pointer position as a
percentage of the bounding box into the glow focal point. -/
def updateGlowPosition (s : BoxState) (r : Rect) (e : MouseEvent) : BoxState :=
  { s with
    glowX := roundTo2 ((e.clientX - r.left) / r.width * 100)
    glowY := roundTo2 ((e.clientY - r.top) / r.height * 100) }

/-- FloatingBox.handleMouseMove: returns immediately when not hovered;
otherwise maps the pointer position to normalized coordinates in [-1, 1],
overwrites target, and updates the glow focal point.  (This rational-field
model covers rectangles with nonzero width and height; the JS semantics of
the unguarded division at width or height zero is modelled separately by
jsHandleMouseMove below.) -/
def handleMouseMove (cfg : BoxConfig) (s : BoxState) (r : Rect) (e : MouseEvent) : BoxState :=
  if s.isHovered = false then s
  else
    let x := (e.clientX - r.left) / r.width * 2 - 1
    let y := (e.clientY - r.top) / r.height * 2 - 1
    updateGlowPosition
      { s with
        target :=
          { rotateX := -y * cfg.rotationMax
            rotateY := x * cfg.rotationMax
            translateZ := cfg.hoverHeight } } r e

/-- FloatingBox.handleMouseEnter: sets the hover flag, disables the box
transition and raises the glow opacity to the configured maximum. -/
def handleMouseEnter (cfg : BoxConfig) (s : BoxState) : BoxState :=
  { s with
    isHovered := true
    transition := TransitionStyle.disabled
    glowOpacity := cfg.glowOpacity }

/-- FloatingBox.handleMouseLeave: clears the hover flag, zeroes the target,
re-enables the timed transition and sets the glow opacity to zero. -/
def handleMouseLeave (s : BoxState) : BoxState :=
  { s with
    isHovered := false
    target := OrientationState.zero
    transition := TransitionStyle.settle
    glowOpacity := 0 }

/-- The per-field interpolation pass of FloatingBox.updateTransforms: each
of the three fields of current is lerped toward the corresponding field of
target with the configured motionSpeed. -/
def lerpStep (cfg : BoxConfig) (s : BoxState) : OrientationState :=
  { rotateX := lerp s.current.rotateX s.target.rotateX cfg.motionSpeed
    rotateY := lerp s.current.rotateY s.target.rotateY cfg.motionSpeed
    translateZ := lerp s.current.translateZ s.target.translateZ cfg.motionSpeed }

/-- Math.abs on a rational value. -/
def mathAbs (q : ℚ) : ℚ := if q < 0 then -q else q

/-- The Math.abs model agrees with the absolute value of the ordered field. -/
lemma mathAbs_eq_abs (q : ℚ) : mathAbs q = |q| := by
  unfold mathAbs
  split
  · rename_i hq
    exact (abs_of_neg hq).symm
  · rename_i hq
    exact (abs_of_nonneg (not_lt.mp hq)).symm

/-- FloatingBox.isNearRest: every component of the given current orientation
is strictly below the snap threshold in absolute value. -/
def isNearRest (cfg : BoxConfig) (c : OrientationState) : Prop :=
  mathAbs c.rotateX < cfg.snapThreshold ∧
  mathAbs c.rotateY < cfg.snapThreshold ∧
  mathAbs c.translateZ < cfg.snapThreshold

instance instDecidableIsNearRest (cfg : BoxConfig) (c : OrientationState) :
    Decidable (isNearRest cfg c) :=
  inferInstanceAs (Decidable (_ ∧ _ ∧ _))

/-- FloatingBox.updateTransforms: lerps every field of current toward
target (the source iterates the three property names; each assignment reads
only the same property, so the three updates are independent), then, when
not hovered and the freshly lerped current is near rest, snaps current to
exactly zero.  The isNearRest test in the source reads this.state.current
after the forEach has mutated it, hence it tests the lerped value. -/
def updateTransforms (cfg : BoxConfig) (s : BoxState) : BoxState :=
  let c := lerpStep cfg s
  if s.isHovered = false ∧ isNearRest cfg c then
    { s with current := OrientationState.zero }
  else
    { s with current := c }

/-- The events of one FloatingBox: the three pointer listeners plus the
animation-frame tick. -/
inductive Event where
  | enter
  | move (r : Rect) (e : MouseEvent)
  | leave
  | tick
deriving DecidableEq

/-- One step of the controller: dispatch an event to its handler. -/
def stepEvent (cfg : BoxConfig) (s : BoxState) : Event → BoxState
  | Event.enter => handleMouseEnter cfg s
  | Event.move r e => handleMouseMove cfg s r e
  | Event.leave => handleMouseLeave s
  | Event.tick => updateTransforms cfg s

/-- Run a list of events from a given state (the single-threaded event /
frame queue of the browser, in order). -/
def runFrom (cfg : BoxConfig) (s : BoxState) : List Event → BoxState
  | [] => s
  | ev :: rest => runFrom cfg (stepEvent cfg s ev) rest

/-- Run a list of events from the constructed state: the reachable states
of one FloatingBox are exactly the values of this function. -/
def run (cfg : BoxConfig) (evts : List Event) : BoxState :=
  runFrom cfg initState evts

/-- One event preserves the invariant that an un-hovered controller has a
zero target. -/
lemma idleTargetZero_step (cfg : BoxConfig) (s : BoxState) (ev : Event)
    (h : s.isHovered = false → s.target = OrientationState.zero) :
    (stepEvent cfg s ev).isHovered = false →
      (stepEvent cfg s ev).target = OrientationState.zero := by
  cases ev with
  | enter => intro hfalse; simp [stepEvent, handleMouseEnter] at hfalse
  | move r e =>
      intro hfalse
      cases hs : s.isHovered with
      | false => simpa [stepEvent, handleMouseMove, hs] using h hs
      | true => simp [stepEvent, handleMouseMove, hs, updateGlowPosition] at hfalse
  | leave => intro _; simp [stepEvent, handleMouseLeave]
  | tick =>
      intro hfalse
      have hf : s.isHovered = false := by
        simp only [stepEvent, updateTransforms] at hfalse
        split at hfalse <;> exact hfalse
      simp only [stepEvent, updateTransforms]
      split <;> exact h hf

/-- Any event sequence preserves the idle-target-zero invariant. -/
lemma idleTargetZero_runFrom (cfg : BoxConfig) (evts : List Event) :
    ∀ s : BoxState, (s.isHovered = false → s.target = OrientationState.zero) →
      (runFrom cfg s evts).isHovered = false →
        (runFrom cfg s evts).target = OrientationState.zero := by
  induction evts with
  | nil => intro s h; exact h
  | cons ev rest ih =>
      intro s h
      exact ih (stepEvent cfg s ev) (idleTargetZero_step cfg s ev h)

/-- Repeated application of the single-field tick x to lerp x finish factor,
starting from start: the trajectory of one orientation field under a fixed
target. -/
def lerpIter (finish factor start : ℚ) : ℕ → ℚ
  | 0 => start
  | n + 1 => lerp (lerpIter finish factor start n) finish factor

/-- The displacement from the target contracts by the factor 1 - f on
every step of the single-field tick. -/
lemma lerpIter_succ_sub (finish factor start : ℚ) (n : ℕ) :
    lerpIter finish factor start (n + 1) - finish =
      (lerpIter finish factor start n - finish) * (1 - factor) := by
  simp only [lerpIter, lerp]
  ring

/-- A JavaScript number as used by the pointer-move arithmetic: a finite
rational, one of the two infinities, or NaN.  (Negative zero is not
distinguished: the inputs of interest, DOM coordinates and box dimensions,
are plain decimal values, and getBoundingClientRect reports a degenerate
box width as positive zero.) -/
inductive JSNum where
  | fin (q : ℚ)
  | posInf
  | negInf
  | nan
deriving DecidableEq

/-- JavaScript subtraction on JSNum. -/
def JSNum.sub : JSNum → JSNum → JSNum
  | nan, _ => nan
  | _, nan => nan
  | fin a, fin b => fin (a - b)
  | fin _, posInf => negInf
  | fin _, negInf => posInf
  | posInf, fin _ => posInf
  | negInf, fin _ => negInf
  | posInf, negInf => posInf
  | negInf, posInf => negInf
  | posInf, posInf => nan
  | negInf, negInf => nan

/-- JavaScript multiplication on JSNum. -/
def JSNum.mul : JSNum → JSNum → JSNum
  | nan, _ => nan
  | _, nan => nan
  | fin a, fin b => fin (a * b)
  | fin a, posInf => if a = 0 then nan else if 0 < a then posInf else negInf
  | fin a, negInf => if a = 0 then nan else if 0 < a then negInf else posInf
  | posInf, fin b => if b = 0 then nan else if 0 < b then posInf else negInf
  | negInf, fin b => if b = 0 then nan else if 0 < b then negInf else posInf
  | posInf, posInf => posInf
  | posInf, negInf => negInf
  | negInf, posInf => negInf
  | negInf, negInf => posInf

/-- JavaScript division on JSNum: division of a nonzero finite value by
(positive) zero yields an infinity of the dividend's sign, and 0 / 0
yields NaN. -/
def JSNum.div : JSNum → JSNum → JSNum
  | nan, _ => nan
  | _, nan => nan
  | fin a, fin b =>
      if b = 0 then (if a = 0 then nan else if 0 < a then posInf else negInf)
      else fin (a / b)
  | fin _, posInf => fin 0
  | fin _, negInf => fin 0
  | posInf, fin b => if 0 ≤ b then posInf else negInf
  | negInf, fin b => if 0 ≤ b then negInf else posInf
  | posInf, posInf => nan
  | posInf, negInf => nan
  | negInf, posInf => nan
  | negInf, negInf => nan

/-- JavaScript unary negation on JSNum. -/
def JSNum.neg : JSNum → JSNum
  | fin a => fin (-a)
  | posInf => negInf
  | negInf => posInf
  | nan => nan

/-- Whether a JSNum is a finite number (neither an infinity nor NaN). -/
def JSNum.isFinite : JSNum → Bool
  | fin _ => true
  | _ => false

/-- An orientation triple over JavaScript numbers, for tracking what the
unguarded pointer-move arithmetic writes into this.state.target. -/
structure JSOrientation where
  rotateX : JSNum
  rotateY : JSNum
  translateZ : JSNum
deriving DecidableEq

/-- FloatingBox.handleMouseMove re-expressed over JavaScript number
semantics (src/Script.js lines 93 to 107): the divisions by rect.width and
rect.height are performed unconditionally, with no guard for a degenerate
bounding box, so a zero dimension sends an infinity or NaN through the
normalized coordinates into the target orientation. -/
def jsHandleMouseMove (cfg : BoxConfig) (hovered : Bool) (target : JSOrientation)
    (r : Rect) (e : MouseEvent) : JSOrientation :=
  if hovered = false then target
  else
    let x := JSNum.sub
      (JSNum.mul (JSNum.div (JSNum.sub (JSNum.fin e.clientX) (JSNum.fin r.left))
        (JSNum.fin r.width)) (JSNum.fin 2)) (JSNum.fin 1)
    let y := JSNum.sub
      (JSNum.mul (JSNum.div (JSNum.sub (JSNum.fin e.clientY) (JSNum.fin r.top))
        (JSNum.fin r.height)) (JSNum.fin 2)) (JSNum.fin 1)
    { rotateX := JSNum.mul (JSNum.neg y) (JSNum.fin cfg.rotationMax)
      rotateY := JSNum.mul x (JSNum.fin cfg.rotationMax)
      translateZ := JSNum.fin cfg.hoverHeight }

/-- Bubble configuration (the numeric fields of CONFIG.bubbles used by
BubbleManager in src/config.js). -/
structure BubbleConfig where
  count : ℕ
  sizeBase : ℚ
  sizeVariance : ℚ
  durationBase : ℚ
  durationVariance : ℚ
deriving DecidableEq

/-- The concrete CONFIG.bubbles values from src/config.js: count 50,
size base 50 with variance 30, duration base 12 with variance 4. -/
def bubblesCONFIG : BubbleConfig :=
  { count := 50
    sizeBase := 50
    sizeVariance := 30
    durationBase := 12
    durationVariance := 4 }

/-- CONFIG.bubbles.colors: the solid-color palette. -/
def bubbleColors : List String :=
  [ "rgba(255, 107, 107, 1)"
  , "rgba(147, 64, 255, 1)"
  , "rgba(77, 171, 247, 1)"
  , "rgba(255, 189, 89, 1)"
  , "rgba(76, 217, 105, 1)"
  , "rgba(252, 83, 154, 1)"
  , "rgba(59, 178, 208, 1)"
  , "rgba(255, 145, 48, 1)"
  , "rgba(180, 129, 255, 1)"
  , "rgba(255, 223, 89, 1)" ]

/-- CONFIG.bubbles.gradients: the gradient palette. -/
def bubbleGradients : List String :=
  [ "linear-gradient(45deg, rgba(255,107,107,1), rgba(255,189,89,1))"
  , "linear-gradient(45deg, rgba(147,64,255,1), rgba(77,171,247,1))"
  , "linear-gradient(45deg, rgba(252,83,154,1), rgba(180,129,255,1))"
  , "linear-gradient(45deg, rgba(76,217,105,1), rgba(59,178,208,1))" ]

/-- Fallback for an out-of-range palette index (unreachable for random
draws in the interval from 0 inclusive to 1 exclusive). -/
def fallbackColor : String := ""

/-- BubbleManager.getRandomColor, with its two Math.random() draws made
explicit: with the first draw below 0.3 pick from the gradient palette,
otherwise from the solid palette, indexing by the floor of the second draw
scaled by the palette length. -/
def getRandomColor (r1 r2 : ℚ) : String :=
  if r1 < 3/10 then
    bubbleGradients.getD (Int.toNat ⌊r2 * bubbleGradients.length⌋) fallbackColor
  else
    bubbleColors.getD (Int.toNat ⌊r2 * bubbleColors.length⌋) fallbackColor

/-- The visual parameters sampled for one bubble by
BubbleManager.createBubble. -/
structure BubbleSpec where
  size : ℚ
  duration : ℚ
  startDelay : ℚ
  driftX : ℚ
  swayAmount : ℚ
  background : String
  leftPercent : ℚ
deriving DecidableEq

/-- BubbleManager.createBubble with the random stream g made explicit; the
draws are consumed in source evaluation order starting at index k: size,
duration, start delay, drift, sway, the two draws of getRandomColor inside
the style object literal, then the left position.  Eight draws per bubble. -/
def createBubble (cfg : BubbleConfig) (g : ℕ → ℚ) (k : ℕ) : BubbleSpec :=
  let size := cfg.sizeBase + g k * cfg.sizeVariance
  let duration := cfg.durationBase + g (k + 1) * cfg.durationVariance
  let startDelay := g (k + 2) * duration
  let driftX := (g (k + 3) - 1/2) * 100
  let swayAmount := (g (k + 4) - 1/2) * 40
  { size := size
    duration := duration
    startDelay := startDelay
    driftX := driftX
    swayAmount := swayAmount
    background := getRandomColor (g (k + 5)) (g (k + 6))
    leftPercent := g (k + 7) * 100 }

/-- BubbleManager.initialize: the loop for i from 0 below CONFIG.bubbles.count
calling createBubble once per iteration, each call consuming the next eight
draws of the stream. -/
def mkBubbles (cfg : BubbleConfig) (g : ℕ → ℚ) : List BubbleSpec :=
  (List.range cfg.count).map (fun i => createBubble cfg g (8 * i))

/-- C1: every animation tick updates each of the three fields of current to
current[f] + (target[f] - current[f]) * motionSpeed, independently per field
and unconditionally in both modes (Tracking and Idle); the rest-snap is the
only subsequent adjustment, replacing the freshly interpolated triple by
zero exactly when its snap condition holds on that interpolated triple. -/
theorem c1_tick_lerps_every_field (cfg : BoxConfig) (s : BoxState) :
    (updateTransforms cfg s).current =
      if s.isHovered = false ∧ isNearRest cfg
          { rotateX := s.current.rotateX + (s.target.rotateX - s.current.rotateX) * cfg.motionSpeed
            rotateY := s.current.rotateY + (s.target.rotateY - s.current.rotateY) * cfg.motionSpeed
            translateZ := s.current.translateZ +
              (s.target.translateZ - s.current.translateZ) * cfg.motionSpeed }
      then OrientationState.zero
      else
        { rotateX := s.current.rotateX + (s.target.rotateX - s.current.rotateX) * cfg.motionSpeed
          rotateY := s.current.rotateY + (s.target.rotateY - s.current.rotateY) * cfg.motionSpeed
          translateZ := s.current.translateZ +
            (s.target.translateZ - s.current.translateZ) * cfg.motionSpeed } := by
  simp only [updateTransforms, lerpStep, lerp]
  split <;> rfl

/-- C2: in mode Idle, whenever the freshly interpolated current triple has
all three components strictly below the snap threshold in absolute value,
the tick produces current equal to the exact zero triple; in mode Tracking
the snap never fires, the tick producing exactly the interpolated triple. -/
theorem c2_rest_snap_exact (cfg : BoxConfig) (s : BoxState) :
    (s.isHovered = false →
      isNearRest cfg (lerpStep cfg s) →
      (updateTransforms cfg s).current = OrientationState.zero) ∧
    (s.isHovered = true →
      (updateTransforms cfg s).current = lerpStep cfg s) := by
  constructor
  · intro hIdle hNear
    simp [updateTransforms, hIdle, hNear]
  · intro hHov
    simp [updateTransforms, hHov]

/-- Witness for C2: a concrete idle state with current equal to
(0.001, 0, 0) and zero target snaps to the exact zero triple. -/
theorem c2_rest_snap_exact_witness :
    (updateTransforms boxCONFIG
      { initState with
        current := { rotateX := 1/1000, rotateY := 0, translateZ := 0 } }).current =
      OrientationState.zero :=
  (c2_rest_snap_exact boxCONFIG
    { initState with
      current := { rotateX := 1/1000, rotateY := 0, translateZ := 0 } }).1 rfl (by decide)

/-- C8: in every reachable state of the controller (any event sequence run
from the constructed state), mode Idle implies that target is the zero
triple. -/
theorem c8_idle_target_zero (cfg : BoxConfig) (evts : List Event)
    (h : (run cfg evts).isHovered = false) :
    (run cfg evts).target = OrientationState.zero :=
  idleTargetZero_runFrom cfg evts initState (fun _ => rfl) h

/-- Witness for C8: after enter, a centred move, a tick and a leave, the
controller is idle and its target is the zero triple. -/
theorem c8_idle_target_zero_witness :
    (run boxCONFIG
      [Event.enter, Event.move ⟨0, 0, 2, 2⟩ ⟨1, 1⟩, Event.tick, Event.leave]).target =
      OrientationState.zero :=
  c8_idle_target_zero boxCONFIG
    [Event.enter, Event.move ⟨0, 0, 2, 2⟩ ⟨1, 1⟩, Event.tick, Event.leave] (by decide)

/-- C6: in every reachable state whose current orientation equals its target
orientation exactly, a further tick leaves current unchanged. -/
theorem c6_tick_idempotent_at_target (cfg : BoxConfig) (evts : List Event)
    (h : (run cfg evts).current = (run cfg evts).target) :
    (updateTransforms cfg (run cfg evts)).current = (run cfg evts).current := by
  set s := run cfg evts with hs
  have hlerp : lerpStep cfg s = s.current := by
    simp [lerpStep, lerp, ← h]
  cases hb : s.isHovered with
  | true =>
      simp [updateTransforms, hb, hlerp]
  | false =>
      have ht : s.target = OrientationState.zero :=
        idleTargetZero_runFrom cfg evts initState (fun _ => rfl) hb
      have hc : s.current = OrientationState.zero := by rw [h, ht]
      simp only [updateTransforms, hlerp, hc]
      split <;> simp [hc]

/-- Witness for C6: the constructed state has current equal to target, and
a tick leaves its current unchanged. -/
theorem c6_tick_idempotent_at_target_witness :
    (updateTransforms boxCONFIG (run boxCONFIG [])).current = (run boxCONFIG []).current :=
  c6_tick_idempotent_at_target boxCONFIG [] rfl

/-- C9: a pointer-move received while not hovered is a complete no-op: the
handler returns the state unchanged, so current, target and the glow focal
point are all untouched, for every pointer position and bounding box. -/
theorem c9_mousemove_idle_noop (cfg : BoxConfig) (s : BoxState) (r : Rect) (e : MouseEvent)
    (h : s.isHovered = false) :
    handleMouseMove cfg s r e = s := by
  simp [handleMouseMove, h]

/-- Witness for C9: a concrete pointer-move on the constructed (idle) state
returns it unchanged. -/
theorem c9_mousemove_idle_noop_witness :
    handleMouseMove boxCONFIG initState ⟨0, 0, 300, 300⟩ ⟨150, 150⟩ = initState :=
  c9_mousemove_idle_noop boxCONFIG initState ⟨0, 0, 300, 300⟩ ⟨150, 150⟩ rfl

/-- C4: a pointer-move handled while Tracking, with the pointer at fractions
fx and fy of the bounding box (nonzero width and height), writes exactly
target = (-(2 fy - 1) rotationMax, (2 fx - 1) rotationMax, hoverHeight); in
particular the centre fractions (1/2, 1/2) give the zero rotations with the
hover lift, and the top-left corner fractions (0, 0) give
(rotationMax, -rotationMax, hoverHeight). -/
theorem c4_mousemove_target_mapping (cfg : BoxConfig) (s : BoxState) (r : Rect)
    (e : MouseEvent) (fx fy : ℚ) (hh : s.isHovered = true)
    (hw : r.width ≠ 0) (hht : r.height ≠ 0)
    (hx : e.clientX = r.left + fx * r.width) (hy : e.clientY = r.top + fy * r.height) :
    (handleMouseMove cfg s r e).target =
      { rotateX := -(2 * fy - 1) * cfg.rotationMax
        rotateY := (2 * fx - 1) * cfg.rotationMax
        translateZ := cfg.hoverHeight } := by
  have hne : ¬ (s.isHovered = false) := by simp [hh]
  have h1 : (r.left + fx * r.width - r.left) / r.width = fx := by
    field_simp
  have h2 : (r.top + fy * r.height - r.top) / r.height = fy := by
    field_simp
  simp only [handleMouseMove, if_neg hne, updateGlowPosition, hx, hy, h1, h2,
    OrientationState.mk.injEq]
  refine ⟨by ring, by ring, trivial⟩

/-- Witness for C4: on a hovered state with a 2-by-2 box at the origin, the
centre pointer (1, 1), at fractions one half, maps to the zero rotations and
the hover lift. -/
theorem c4_mousemove_target_mapping_witness :
    (handleMouseMove boxCONFIG { initState with isHovered := true }
        ⟨0, 0, 2, 2⟩ ⟨1, 1⟩).target =
      { rotateX := -(2 * (1/2 : ℚ) - 1) * boxCONFIG.rotationMax
        rotateY := (2 * (1/2 : ℚ) - 1) * boxCONFIG.rotationMax
        translateZ := boxCONFIG.hoverHeight } :=
  c4_mousemove_target_mapping boxCONFIG { initState with isHovered := true }
    ⟨0, 0, 2, 2⟩ ⟨1, 1⟩ (1/2) (1/2) rfl (by decide) (by decide) (by decide) (by decide)

/-- C5: for an interpolation factor strictly between 0 and 1 and distinct
start and end values, every step of the repeated single-field tick strictly
decreases the distance to the end value, and the trajectory stays on the
same side of the end value as the start (it never overshoots). -/
theorem c5_lerp_monotone_no_overshoot (finish factor start : ℚ)
    (h0 : 0 < factor) (h1 : factor < 1) (hne : start ≠ finish) (n : ℕ) :
    |lerpIter finish factor start (n + 1) - finish| <
      |lerpIter finish factor start n - finish| ∧
    0 < (lerpIter finish factor start n - finish) * (start - finish) := by
  have hf : (0 : ℚ) < 1 - factor := by linarith
  induction n with
  | zero =>
      have hd : lerpIter finish factor start 0 - finish = start - finish := by
        simp [lerpIter]
      constructor
      · rw [lerpIter_succ_sub, abs_mul, abs_of_pos hf, hd]
        have hpos : 0 < |start - finish| := abs_pos.mpr (sub_ne_zero.mpr hne)
        nlinarith [mul_pos hpos h0]
      · rw [hd]
        exact mul_self_pos.mpr (sub_ne_zero.mpr hne)
  | succ n ih =>
      obtain ⟨ihlt, ihside⟩ := ih
      have hside : 0 < (lerpIter finish factor start (n + 1) - finish) * (start - finish) := by
        rw [lerpIter_succ_sub]
        nlinarith
      refine ⟨?_, hside⟩
      have hpos : 0 < |lerpIter finish factor start (n + 1) - finish| := by
        rw [abs_pos]
        intro hzero
        rw [hzero, zero_mul] at hside
        exact lt_irrefl 0 hside
      rw [lerpIter_succ_sub finish factor start (n + 1), abs_mul, abs_of_pos hf]
      nlinarith [mul_pos hpos h0]

/-- Witness for C5: interpolating from 0 toward 1 with factor one half, the
first step strictly decreases the distance to 1 and stays on the start's
side of 1. -/
theorem c5_lerp_monotone_no_overshoot_witness :
    |lerpIter 1 (1/2) 0 1 - 1| < |lerpIter 1 (1/2) 0 0 - 1| ∧
    0 < (lerpIter 1 (1/2) 0 0 - 1) * ((0 : ℚ) - 1) :=
  c5_lerp_monotone_no_overshoot 1 (1/2) 0 (by decide) (by decide) (by decide) 0

/-- C7: for every count and every well-formed bubble configuration
(nonnegative variances, positive duration base, as in src/config.js where
they are 30, 4 and 12), initialization produces exactly count bubbles, and
for every random stream drawing from the interval from 0 inclusive to 1
exclusive, every produced bubble has diameter between sizeBase and
sizeBase + sizeVariance, duration between durationBase and
durationBase + durationVariance, and start delay at least 0 and strictly
below its own duration. -/
theorem c7_bubbles_count_and_ranges (cfg : BubbleConfig) (g : ℕ → ℚ)
    (hsv : 0 ≤ cfg.sizeVariance) (hdb : 0 < cfg.durationBase)
    (hdv : 0 ≤ cfg.durationVariance) (hg : ∀ n, 0 ≤ g n ∧ g n < 1) :
    (mkBubbles cfg g).length = cfg.count ∧
    ∀ b ∈ mkBubbles cfg g,
      (cfg.sizeBase ≤ b.size ∧ b.size ≤ cfg.sizeBase + cfg.sizeVariance) ∧
      (cfg.durationBase ≤ b.duration ∧
        b.duration ≤ cfg.durationBase + cfg.durationVariance) ∧
      (0 ≤ b.startDelay ∧ b.startDelay < b.duration) := by
  constructor
  · simp [mkBubbles]
  · intro b hb
    simp only [mkBubbles, List.mem_map] at hb
    obtain ⟨i, _, rfl⟩ := hb
    obtain ⟨h0, h1⟩ := hg (8 * i)
    obtain ⟨h2, h3⟩ := hg (8 * i + 1)
    obtain ⟨h4, h5⟩ := hg (8 * i + 2)
    have hdurpos : 0 < cfg.durationBase + g (8 * i + 1) * cfg.durationVariance := by
      nlinarith [mul_nonneg h2 hdv]
    simp only [createBubble]
    refine ⟨⟨by nlinarith [mul_nonneg h0 hsv],
        by nlinarith [mul_nonneg hsv (show (0 : ℚ) ≤ 1 - g (8 * i) by linarith)]⟩,
      ⟨by nlinarith [mul_nonneg h2 hdv],
        by nlinarith [mul_nonneg hdv (show (0 : ℚ) ≤ 1 - g (8 * i + 1) by linarith)]⟩,
      by nlinarith [mul_nonneg h4 hdurpos.le], ?_⟩
    nlinarith [mul_pos hdurpos (show (0 : ℚ) < 1 - g (8 * i + 2) by linarith)]

/-- Witness for C7: with the repository configuration and the all-zero
stream (which draws inside the required interval), exactly count bubbles
are produced and every parameter satisfies the stated ranges. -/
theorem c7_bubbles_count_and_ranges_witness :
    (mkBubbles bubblesCONFIG (fun _ => 0)).length = bubblesCONFIG.count ∧
    ∀ b ∈ mkBubbles bubblesCONFIG (fun _ => 0),
      (bubblesCONFIG.sizeBase ≤ b.size ∧
        b.size ≤ bubblesCONFIG.sizeBase + bubblesCONFIG.sizeVariance) ∧
      (bubblesCONFIG.durationBase ≤ b.duration ∧
        b.duration ≤ bubblesCONFIG.durationBase + bubblesCONFIG.durationVariance) ∧
      (0 ≤ b.startDelay ∧ b.startDelay < b.duration) :=
  c7_bubbles_count_and_ranges bubblesCONFIG (fun _ => 0) (by decide) (by decide)
    (by decide) (fun _ => ⟨le_refl 0, show (0 : ℚ) < 1 by decide⟩)

/-- The orientation bounds of interest: rotations within rotationMax in
absolute value, lift between 0 and hoverHeight. -/
def InBounds (cfg : BoxConfig) (c : OrientationState) : Prop :=
  |c.rotateX| ≤ cfg.rotationMax ∧ |c.rotateY| ≤ cfg.rotationMax ∧
  0 ≤ c.translateZ ∧ c.translateZ ≤ cfg.hoverHeight

/-- Both orientation triples of a controller state are in bounds. -/
def BoundedState (cfg : BoxConfig) (s : BoxState) : Prop :=
  InBounds cfg s.current ∧ InBounds cfg s.target

/-- A pointer-move event whose coordinates lie inside its (nondegenerate)
bounding box; the other events carry no coordinates. -/
def InBox : Event → Prop
  | Event.move r e =>
      0 < r.width ∧ 0 < r.height ∧
      r.left ≤ e.clientX ∧ e.clientX ≤ r.left + r.width ∧
      r.top ≤ e.clientY ∧ e.clientY ≤ r.top + r.height
  | _ => True

instance instDecidableInBox : (ev : Event) → Decidable (InBox ev)
  | Event.enter => Decidable.isTrue trivial
  | Event.leave => Decidable.isTrue trivial
  | Event.tick => Decidable.isTrue trivial
  | Event.move r e =>
      inferInstanceAs (Decidable (0 < r.width ∧ 0 < r.height ∧
        r.left ≤ e.clientX ∧ e.clientX ≤ r.left + r.width ∧
        r.top ≤ e.clientY ∧ e.clientY ≤ r.top + r.height))

/-- A lerp with factor in the unit interval stays inside any interval
containing both its endpoints. -/
lemma lerp_bounds (a b x t f : ℚ) (hf0 : 0 ≤ f) (hf1 : f ≤ 1)
    (hxa : a ≤ x) (hxb : x ≤ b) (hta : a ≤ t) (htb : t ≤ b) :
    a ≤ lerp x t f ∧ lerp x t f ≤ b := by
  unfold lerp
  constructor <;>
    nlinarith [mul_nonneg (sub_nonneg.2 hta) hf0,
      mul_nonneg (sub_nonneg.2 hxa) (sub_nonneg.2 hf1),
      mul_nonneg (sub_nonneg.2 htb) hf0,
      mul_nonneg (sub_nonneg.2 hxb) (sub_nonneg.2 hf1)]

/-- The normalized pointer coordinate of a point inside the box lies in
the interval from -1 to 1. -/
lemma normCoord_bounds (l w c : ℚ) (hw : 0 < w) (hcl : l ≤ c) (hcu : c ≤ l + w) :
    -1 ≤ (c - l) / w * 2 - 1 ∧ (c - l) / w * 2 - 1 ≤ 1 := by
  have h1 : 0 ≤ (c - l) / w := div_nonneg (by linarith) hw.le
  have h2 : (c - l) / w ≤ 1 := (div_le_one hw).2 (by linarith)
  constructor <;> linarith

/-- A unit-interval multiple of a nonnegative bound stays within that bound
in absolute value. -/
lemma unit_mul_abs_le (u m : ℚ) (hm : 0 ≤ m) (h1 : -1 ≤ u) (h2 : u ≤ 1) :
    |u * m| ≤ m := by
  rw [abs_mul, abs_of_nonneg hm]
  have hu : |u| ≤ 1 := abs_le.2 ⟨h1, h2⟩
  nlinarith [abs_nonneg u]

/-- Every event preserves the orientation bounds, given a well-formed
configuration and an in-box pointer-move. -/
lemma bounded_step (cfg : BoxConfig) (hm0 : 0 ≤ cfg.motionSpeed)
    (hm1 : cfg.motionSpeed ≤ 1) (hrot : 0 ≤ cfg.rotationMax)
    (hhov : 0 ≤ cfg.hoverHeight) (s : BoxState) (ev : Event)
    (hb : BoundedState cfg s) (hin : InBox ev) :
    BoundedState cfg (stepEvent cfg s ev) := by
  obtain ⟨⟨hcx, hcy, hcz0, hcz1⟩, ⟨htx, hty, htz0, htz1⟩⟩ := hb
  cases ev with
  | enter =>
      exact ⟨⟨hcx, hcy, hcz0, hcz1⟩, ⟨htx, hty, htz0, htz1⟩⟩
  | leave =>
      refine ⟨⟨hcx, hcy, hcz0, hcz1⟩, ⟨?_, ?_, le_refl 0, hhov⟩⟩ <;>
        simpa using hrot
  | move r e =>
      cases hsh : s.isHovered with
      | false =>
          simp only [stepEvent, handleMouseMove, hsh, if_pos rfl]
          exact ⟨⟨hcx, hcy, hcz0, hcz1⟩, ⟨htx, hty, htz0, htz1⟩⟩
      | true =>
          obtain ⟨hw, hht, hxl, hxu, hyl, hyu⟩ := hin
          obtain ⟨hnx1, hnx2⟩ := normCoord_bounds r.left r.width e.clientX hw hxl hxu
          obtain ⟨hny1, hny2⟩ := normCoord_bounds r.top r.height e.clientY hht hyl hyu
          simp only [stepEvent, handleMouseMove]
          rw [if_neg (by simp [hsh])]
          refine ⟨⟨hcx, hcy, hcz0, hcz1⟩, ⟨?_, ?_, hhov, le_refl _⟩⟩
          · have : |-((e.clientY - r.top) / r.height * 2 - 1) * cfg.rotationMax| ≤
                cfg.rotationMax :=
              unit_mul_abs_le _ _ hrot (by linarith) (by linarith)
            exact this
          · exact unit_mul_abs_le _ _ hrot hnx1 hnx2
  | tick =>
      simp only [stepEvent, updateTransforms]
      split
      · exact ⟨⟨by simpa using hrot, by simpa using hrot, le_refl 0, hhov⟩,
          ⟨htx, hty, htz0, htz1⟩⟩
      · have hrx := lerp_bounds (-cfg.rotationMax) cfg.rotationMax
          s.current.rotateX s.target.rotateX cfg.motionSpeed hm0 hm1
          (abs_le.1 hcx).1 (abs_le.1 hcx).2 (abs_le.1 htx).1 (abs_le.1 htx).2
        have hry := lerp_bounds (-cfg.rotationMax) cfg.rotationMax
          s.current.rotateY s.target.rotateY cfg.motionSpeed hm0 hm1
          (abs_le.1 hcy).1 (abs_le.1 hcy).2 (abs_le.1 hty).1 (abs_le.1 hty).2
        have hrz := lerp_bounds 0 cfg.hoverHeight
          s.current.translateZ s.target.translateZ cfg.motionSpeed hm0 hm1
          hcz0 hcz1 htz0 htz1
        exact ⟨⟨abs_le.2 hrx, abs_le.2 hry, hrz.1, hrz.2⟩,
          ⟨htx, hty, htz0, htz1⟩⟩

/-- Any in-box event sequence preserves the orientation bounds. -/
lemma bounded_runFrom (cfg : BoxConfig) (hm0 : 0 ≤ cfg.motionSpeed)
    (hm1 : cfg.motionSpeed ≤ 1) (hrot : 0 ≤ cfg.rotationMax)
    (hhov : 0 ≤ cfg.hoverHeight) (evts : List Event) :
    ∀ s : BoxState, BoundedState cfg s → (∀ ev ∈ evts, InBox ev) →
      BoundedState cfg (runFrom cfg s evts) := by
  induction evts with
  | nil => intro s hb _; exact hb
  | cons ev rest ih =>
      intro s hb hin
      exact ih (stepEvent cfg s ev)
        (bounded_step cfg hm0 hm1 hrot hhov s ev hb (hin ev (by simp)))
        (fun ev' hev' => hin ev' (by simp [hev']))

/-- C10: with interpolationFactor in the unit interval, nonnegative
hoverLiftDistance and (nonnegative) maxRotationDegrees, and every handled
pointer-move inside its bounding box, every reachable controller state has
both rotation components within rotationMax in absolute value and the lift
between 0 and hoverHeight; each event handler, the interpolation step and
the rest-snap preserve these bounds (lemma bounded_step). -/
theorem c10_reachable_bounded (cfg : BoxConfig) (evts : List Event)
    (hm0 : 0 ≤ cfg.motionSpeed) (hm1 : cfg.motionSpeed ≤ 1)
    (hrot : 0 ≤ cfg.rotationMax) (hhov : 0 ≤ cfg.hoverHeight)
    (hin : ∀ ev ∈ evts, InBox ev) :
    |(run cfg evts).current.rotateX| ≤ cfg.rotationMax ∧
    |(run cfg evts).current.rotateY| ≤ cfg.rotationMax ∧
    0 ≤ (run cfg evts).current.translateZ ∧
    (run cfg evts).current.translateZ ≤ cfg.hoverHeight := by
  have hinit : BoundedState cfg initState := by
    refine ⟨⟨?_, ?_, le_refl 0, hhov⟩, ⟨?_, ?_, le_refl 0, hhov⟩⟩ <;>
      simpa using hrot
  exact (bounded_runFrom cfg hm0 hm1 hrot hhov evts initState hinit hin).1

/-- Witness for C10: the repository configuration is well-formed, and after
enter, an in-box move and a tick the current orientation obeys the bounds. -/
theorem c10_reachable_bounded_witness :
    |(run boxCONFIG [Event.enter, Event.move ⟨0, 0, 2, 2⟩ ⟨2, 0⟩, Event.tick]).current.rotateX| ≤
      boxCONFIG.rotationMax ∧
    |(run boxCONFIG [Event.enter, Event.move ⟨0, 0, 2, 2⟩ ⟨2, 0⟩, Event.tick]).current.rotateY| ≤
      boxCONFIG.rotationMax ∧
    0 ≤ (run boxCONFIG [Event.enter, Event.move ⟨0, 0, 2, 2⟩ ⟨2, 0⟩, Event.tick]).current.translateZ ∧
    (run boxCONFIG [Event.enter, Event.move ⟨0, 0, 2, 2⟩ ⟨2, 0⟩, Event.tick]).current.translateZ ≤
      boxCONFIG.hoverHeight :=
  c10_reachable_bounded boxCONFIG [Event.enter, Event.move ⟨0, 0, 2, 2⟩ ⟨2, 0⟩, Event.tick]
    (by decide) (by decide) (by decide) (by decide) (by decide)

/-- C3 counterexample: a pointer-move handled while hovered on a bounding
box of zero width does not skip the update: target is overwritten (its
translateZ becomes the hover height) and the overflowing normalized
coordinate puts positive infinity, a non-finite value, into
target.rotateY. -/
theorem c3_degenerate_box_counterexample :
    (jsHandleMouseMove boxCONFIG true
        { rotateX := JSNum.fin 0, rotateY := JSNum.fin 0, translateZ := JSNum.fin 0 }
        ⟨0, 0, 0, 100⟩ ⟨5, 50⟩ ≠
      { rotateX := JSNum.fin 0, rotateY := JSNum.fin 0, translateZ := JSNum.fin 0 }) ∧
    (jsHandleMouseMove boxCONFIG true
        { rotateX := JSNum.fin 0, rotateY := JSNum.fin 0, translateZ := JSNum.fin 0 }
        ⟨0, 0, 0, 100⟩ ⟨5, 50⟩).rotateY = JSNum.posInf := by
  decide

/-- C3 amended: a pointer-move handled while Tracking whose bounding box has
zero width (resp. zero height) does not skip the update; the division by the
zero dimension makes the corresponding normalized coordinate non-finite and
the handler writes a non-finite value (NaN or an infinity) into
target.rotateY (resp. target.rotateX). -/
theorem c3_degenerate_box_writes_nonfinite (tgt : JSOrientation) (r : Rect)
    (e : MouseEvent) :
    (r.width = 0 →
      JSNum.isFinite (jsHandleMouseMove boxCONFIG true tgt r e).rotateY = false) ∧
    (r.height = 0 →
      JSNum.isFinite (jsHandleMouseMove boxCONFIG true tgt r e).rotateX = false) := by
  constructor
  · intro hw
    simp only [jsHandleMouseMove]
    rw [if_neg (by simp)]
    rcases lt_trichotomy (e.clientX - r.left) 0 with h | h | h
    · simp [JSNum.sub, JSNum.div, JSNum.mul, JSNum.isFinite, hw, h.ne, lt_asymm h,
        boxCONFIG, show (2 : ℚ) ≠ 0 by decide, show (0 : ℚ) < 2 by decide,
        show (15 : ℚ) ≠ 0 by decide, show (0 : ℚ) < 15 by decide]
    · simp [JSNum.sub, JSNum.div, JSNum.mul, JSNum.isFinite, hw, h, boxCONFIG]
    · simp [JSNum.sub, JSNum.div, JSNum.mul, JSNum.isFinite, hw, h.ne', h,
        boxCONFIG, show (2 : ℚ) ≠ 0 by decide, show (0 : ℚ) < 2 by decide,
        show (15 : ℚ) ≠ 0 by decide, show (0 : ℚ) < 15 by decide]
  · intro hht
    simp only [jsHandleMouseMove]
    rw [if_neg (by simp)]
    rcases lt_trichotomy (e.clientY - r.top) 0 with h | h | h
    · simp [JSNum.sub, JSNum.div, JSNum.mul, JSNum.neg, JSNum.isFinite, hht, h.ne,
        lt_asymm h, boxCONFIG, show (2 : ℚ) ≠ 0 by decide, show (0 : ℚ) < 2 by decide,
        show (15 : ℚ) ≠ 0 by decide, show (0 : ℚ) < 15 by decide]
    · simp [JSNum.sub, JSNum.div, JSNum.mul, JSNum.neg, JSNum.isFinite, hht, h, boxCONFIG]
    · simp [JSNum.sub, JSNum.div, JSNum.mul, JSNum.neg, JSNum.isFinite, hht, h.ne', h,
        boxCONFIG, show (2 : ℚ) ≠ 0 by decide, show (0 : ℚ) < 2 by decide,
        show (15 : ℚ) ≠ 0 by decide, show (0 : ℚ) < 15 by decide]

/-- Witness for the amended C3: the concrete zero-width move of the
counterexample indeed leaves a non-finite rotateY in target. -/
theorem c3_degenerate_box_writes_nonfinite_witness :
    JSNum.isFinite (jsHandleMouseMove boxCONFIG true
      { rotateX := JSNum.fin 0, rotateY := JSNum.fin 0, translateZ := JSNum.fin 0 }
      ⟨0, 0, 0, 100⟩ ⟨5, 50⟩).rotateY = false :=
  (c3_degenerate_box_writes_nonfinite
    { rotateX := JSNum.fin 0, rotateY := JSNum.fin 0, translateZ := JSNum.fin 0 }
    ⟨0, 0, 0, 100⟩ ⟨5, 50⟩).1 rfl
